import Mathlib

/-!
Verification of the incident operation builder (`pypd/models/incident.py`).

The module under verification is a client-side request builder: each method
validates its arguments, shapes a request envelope (HTTP verb, endpoint path,
extra headers, JSON-serializable body), and hands it to an injected transport
(`request`, or the `create` / `find` helpers of sibling entity factories).

Shallow embedding choices:
* Dynamically typed Python values are modelled by the inductive `PyVal`.
* Raising a validation error is modelled by `Except.error e : Except PyErr NetCall`;
  reaching the transport with a fully built envelope is `Except.ok c`.  Since a
  raise aborts the call before the transport is invoked, an `Except.error`
  result entails that no network activity happened.
* The transport boundary (the external entity base class, which is out of the
  module's scope) is modelled by the datatype `NetCall` recording exactly the
  arguments handed over.
-/

namespace Pypd

/-- A dynamically typed Python value, restricted to the shapes this module
handles: `None`, booleans, integers, strings, lists, dicts (as ordered
key/value lists, matching insertion-ordered Python dicts), and entity-like
objects of the external `Entity` base class. -/
inductive PyVal where
  | none
  | bool (b : Bool)
  | int (n : Int)
  | str (s : String)
  | list (xs : List PyVal)
  | dict (kvs : List (String × PyVal))
  | entity (kvs : List (String × PyVal))

/-- `v is None` in Python. -/
def PyVal.isNone : PyVal → Bool
  | .none => true
  | _ => false

/-- `isinstance(v, six.string_types)` in Python: true exactly on strings. -/
def PyVal.isStr : PyVal → Bool
  | .str _ => true
  | _ => false

/-- `isinstance(v, list)` in Python. -/
def PyVal.isList : PyVal → Bool
  | .list _ => true
  | _ => false

/-- `isinstance(v, Entity)` in Python, for the external `Entity` base class. -/
def PyVal.isEntity : PyVal → Bool
  | .entity _ => true
  | _ => false

/-- The element list of a Python list value (only consulted after an
`isinstance(v, list)` guard has succeeded). -/
def PyVal.asList : PyVal → List PyVal
  | .list xs => xs
  | _ => []

/-- Python truthiness, as used by `if x:` and `x or y`: `None`, `False`, `0`,
the empty string and empty containers are falsy; everything else, including
any entity object, is truthy. -/
def PyVal.truthy : PyVal → Bool
  | .none => false
  | .bool b => b
  | .int n => n != 0
  | .str s => !s.isEmpty
  | .list xs => !xs.isEmpty
  | .dict kvs => !kvs.isEmpty
  | .entity _ => true

/-- Modelled from the spec: an entity-like object exposes an `id` field via
item access (`entity['id']`); the `Entity` base class providing
`__getitem__` is external to this module.  Lookup returns the first binding
of the key, or `None` when absent. -/
def PyVal.getItem (v : PyVal) (k : String) : PyVal :=
  match v with
  | .entity kvs =>
    match kvs.find? (fun p => p.1 == k) with
    | some p => p.2
    | Option.none => PyVal.none
  | _ => PyVal.none

/-- Model of Python `json.dumps` restricted to the scalar values this module
serializes (only `is_overview`, a boolean in every documented call, reaches
it; composite encodings are not needed and are left at a placeholder). -/
def jsonDumps : PyVal → String
  | .none => "null"
  | .bool b => if b then "true" else "false"
  | .int n => toString n
  | .str s => "\"" ++ s ++ "\""
  | _ => ""

/-- Model of Python `'/'.join(segments)`. -/
def joinPath : List String → String
  | [] => ""
  | [s] => s
  | s :: rest => s ++ "/" ++ joinPath rest

/-- Modelled from the spec: the typed validation errors of the external
`errors` module, each carrying the offending value for diagnostics
(`MissingFromEmail`, `InvalidArguments`), plus the runtime error produced by
`raise NotImplemented` in `update` — `NotImplemented` is a constant, not an
exception class, so the raise statement itself errors at call time. -/
inductive PyErr where
  | missingFromEmail (v : PyVal)
  | invalidArguments (v : PyVal)
  | raisedNotImplementedConstant

/-- A call handed to the external transport collaborator, recording exactly
the arguments the module passes: `request(method, endpoint, add_headers,
data)` on the incident itself, `Factory.create(endpoint, api_key,
add_headers, data_key?, data, method?)`, or `Factory.find(endpoint, api_key,
**kwargs)` (keyword arguments in the order the source passes them). -/
inductive NetCall where
  | request (method : String) (endpoint : String)
      (add_headers : List (String × PyVal)) (data : PyVal)
  | create (factory : String) (endpoint : String) (api_key : String)
      (add_headers : List (String × PyVal)) (data_key : Option String)
      (data : PyVal) (method : Option String)
  | find (factory : String) (endpoint : String) (api_key : String)
      (kwargs : List (String × PyVal))

/-- The incident handle: its remote id, the base endpoint for incident
resources, and the credential passed through to nested factories. -/
structure Incident where
  id : String
  endpoint : String
  api_key : String

/-- `Incident.resolve(self, from_email, resolution=None)`. -/
def Incident.resolve (inc : Incident) (from_email resolution : PyVal) :
    Except PyErr NetCall :=
  if from_email.isNone || !from_email.isStr then
    .error (.missingFromEmail from_email)
  else
    let endpoint := joinPath [inc.endpoint, inc.id]
    let add_headers := [("from", from_email)]
    let data := PyVal.dict (
      [("incident", PyVal.dict
        [("type", PyVal.str "incident"), ("status", PyVal.str "resolved")])] ++
      (if resolution.isNone then [] else [("resolution", resolution)]))
    .ok (.request "PUT" endpoint add_headers data)

/-- `Incident.acknowledge(self, from_email)`. -/
def Incident.acknowledge (inc : Incident) (from_email : PyVal) :
    Except PyErr NetCall :=
  let endpoint := joinPath [inc.endpoint, inc.id]
  if from_email.isNone || !from_email.isStr then
    .error (.missingFromEmail from_email)
  else
    let add_headers := [("from", from_email)]
    let data := PyVal.dict
      [("incident", PyVal.dict
        [("type", PyVal.str "incident"), ("status", PyVal.str "acknowledged")])]
    .ok (.request "PUT" endpoint add_headers data)

/-- `Incident.reassign(self, from_email, user_ids)`. -/
def Incident.reassign (inc : Incident) (from_email user_ids : PyVal) :
    Except PyErr NetCall :=
  let endpoint := joinPath [inc.endpoint, inc.id]
  if from_email.isNone || !from_email.isStr then
    .error (.missingFromEmail from_email)
  else if user_ids.isNone || !user_ids.isList then
    .error (.invalidArguments user_ids)
  else if !(user_ids.asList.all PyVal.isStr) then
    .error (.invalidArguments user_ids)
  else
    let assignees := user_ids.asList.map (fun user_id =>
      PyVal.dict [("assignee", PyVal.dict
        [("id", user_id), ("type", PyVal.str "user_reference")])])
    let add_headers := [("from", from_email)]
    let data := PyVal.dict
      [("incident", PyVal.dict
        [("type", PyVal.str "incident"), ("assignments", PyVal.list assignees)])]
    .ok (.request "PUT" endpoint add_headers data)

/-- `Incident.add_responders(self, from_email, requester_id, message,
user_ids=None, escalation_policy_ids=None)`. -/
def Incident.add_responders (inc : Incident)
    (from_email requester_id message user_ids escalation_policy_ids : PyVal) :
    Except PyErr NetCall :=
  let endpoint := joinPath [inc.endpoint, inc.id, "responder_requests"]
  if from_email.isNone || !from_email.isStr then
    .error (.missingFromEmail from_email)
  else if !(user_ids.truthy || escalation_policy_ids.truthy) then
    .error (.invalidArguments (.str "Need at least one target to be supplied"))
  else
    let userTargets : Except PyErr (List PyVal) :=
      if user_ids.truthy then
        if !user_ids.isList then .error (.invalidArguments user_ids)
        else if !(user_ids.asList.all PyVal.isStr) then
          .error (.invalidArguments user_ids)
        else .ok (user_ids.asList.map (fun user_id =>
          PyVal.dict [("responder_request_target", PyVal.dict
            [("id", user_id), ("type", PyVal.str "user_reference")])]))
      else .ok []
    match userTargets with
    | .error e => .error e
    | .ok users =>
      let epTargets : Except PyErr (List PyVal) :=
        if escalation_policy_ids.truthy then
          if !escalation_policy_ids.isList then
            .error (.invalidArguments escalation_policy_ids)
          else if !(escalation_policy_ids.asList.all PyVal.isStr) then
            .error (.invalidArguments escalation_policy_ids)
          else .ok (escalation_policy_ids.asList.map (fun escalation_policy_id =>
            PyVal.dict [("responder_request_target", PyVal.dict
              [("id", escalation_policy_id),
               ("type", PyVal.str "escalation_policy_reference")])]))
        else .ok []
      match epTargets with
      | .error e => .error e
      | .ok esclation_policies =>
        let responders := users ++ esclation_policies
        let add_headers := [("from", from_email)]
        let data := PyVal.dict
          [("requester_id", requester_id),
           ("message", message),
           ("responder_request_targets", PyVal.list responders)]
        .ok (.request "POST" endpoint add_headers data)

/-- `Incident.reassign_escalation_policy(self, from_email, escalation_policy_id)`. -/
def Incident.reassign_escalation_policy (inc : Incident)
    (from_email escalation_policy_id : PyVal) : Except PyErr NetCall :=
  let endpoint := joinPath [inc.endpoint, inc.id]
  if from_email.isNone || !from_email.isStr then
    .error (.missingFromEmail from_email)
  else if escalation_policy_id.isNone || !escalation_policy_id.isStr then
    .error (.invalidArguments escalation_policy_id)
  else
    let add_headers := [("from", from_email)]
    let data := PyVal.dict
      [("incident", PyVal.dict
        [("type", PyVal.str "incident"),
         ("escalation_policy", PyVal.dict
           [("id", escalation_policy_id),
            ("type", PyVal.str "escalation_policy_reference")])])]
    .ok (.request "PUT" endpoint add_headers data)

/-- `Incident.rename(self, from_email, title)`. -/
def Incident.rename (inc : Incident) (from_email title : PyVal) :
    Except PyErr NetCall :=
  let endpoint := joinPath [inc.endpoint, inc.id]
  if from_email.isNone || !from_email.isStr then
    .error (.missingFromEmail from_email)
  else if title.isNone || !title.isStr then
    .error (.invalidArguments title)
  else
    let add_headers := [("from", from_email)]
    let data := PyVal.dict
      [("incident", PyVal.dict
        [("type", PyVal.str "incident"), ("title", title)])]
    .ok (.request "PUT" endpoint add_headers data)

/-- `Incident.log_entries(self, time_zone='UTC', is_overview=False,
include=None, fetch_all=True)`. -/
def Incident.log_entries (inc : Incident)
    (time_zone is_overview includeArg fetch_all : PyVal) : Except PyErr NetCall :=
  let endpoint := joinPath [inc.endpoint, inc.id, "log_entries"]
  let query_params :=
    [("time_zone", time_zone),
     ("is_overview", PyVal.str (jsonDumps is_overview))] ++
    (if includeArg.truthy then [("include", includeArg)] else [])
  .ok (.find "LogEntry" endpoint inc.api_key
    (("fetch_all", fetch_all) :: query_params))

/-- `Incident.update(self, *args, **kwargs)`: the body is `raise NotImplemented`. -/
def Incident.update (_inc : Incident) (_args : List PyVal)
    (_kwargs : List (String × PyVal)) : Except PyErr NetCall :=
  .error .raisedNotImplementedConstant

/-- `Incident.notes(self)`. -/
def Incident.notes (inc : Incident) : Except PyErr NetCall :=
  let endpoint := joinPath [inc.endpoint, inc.id, "notes"]
  .ok (.find "Note" endpoint inc.api_key [])

/-- `Incident.create_note(self, from_email, content)`. -/
def Incident.create_note (inc : Incident) (from_email content : PyVal) :
    Except PyErr NetCall :=
  if from_email.isNone || !from_email.isStr then
    .error (.missingFromEmail from_email)
  else
    let endpoint := joinPath [inc.endpoint, inc.id, "notes"]
    let add_headers := [("from", from_email)]
    .ok (.create "Note" endpoint inc.api_key add_headers Option.none
      (PyVal.dict [("content", content)]) Option.none)

/-- `Incident.snooze(self, from_email, duration)`. -/
def Incident.snooze (inc : Incident) (from_email duration : PyVal) :
    Except PyErr NetCall :=
  if from_email.isNone || !from_email.isStr then
    .error (.missingFromEmail from_email)
  else
    let endpoint := joinPath [inc.endpoint, inc.id, "snooze"]
    let add_headers := [("from", from_email)]
    .ok (.create "Incident" endpoint inc.api_key add_headers (some "duration")
      duration Option.none)

/-- `Incident.merge(self, from_email, source_incidents)`.  The Python
argument is an iterable of raw id strings or `Entity`-like objects; the
iterable is embedded as a Lean list. -/
def Incident.merge (inc : Incident) (from_email : PyVal)
    (source_incidents : List PyVal) : Except PyErr NetCall :=
  if from_email.isNone || !from_email.isStr then
    .error (.missingFromEmail from_email)
  else
    let add_headers := [("from", from_email)]
    let endpoint := joinPath [inc.endpoint, inc.id, "merge"]
    let incident_ids := source_incidents.map (fun entity =>
      if entity.isEntity then entity.getItem "id" else entity)
    let incident_references := incident_ids.map (fun id_ =>
      PyVal.dict [("type", PyVal.str "incident_reference"), ("id", id_)])
    .ok (.create "Incident" endpoint inc.api_key add_headers
      (some "source_incidents") (PyVal.list incident_references) (some "PUT"))

/-- `Incident.alerts(self)`. -/
def Incident.alerts (inc : Incident) : Except PyErr NetCall :=
  let endpoint := joinPath [inc.endpoint, inc.id, "alerts"]
  .ok (.find "Alert" endpoint inc.api_key [])

/-- An element of `merge`'s input at the abstraction level of the spec:
either a raw id string or an entity-like object exposing an `id` field
(possibly alongside further fields). -/
inductive IdOrEntity where
  | rawId (s : String)
  | ent (s : String) (rest : List (String × PyVal))

/-- The Python value an `IdOrEntity` denotes. -/
def IdOrEntity.toPyVal : IdOrEntity → PyVal
  | .rawId s => .str s
  | .ent s rest => .entity (("id", PyVal.str s) :: rest)

/-- The id string an `IdOrEntity` carries. -/
def IdOrEntity.idStr : IdOrEntity → String
  | .rawId s => s
  | .ent s _ => s

/-- A concrete incident handle used to instantiate witnesses. -/
def incW : Incident := ⟨"PXYZ", "/incidents", "key1"⟩

/-- Evaluation lemmas for the Python type and truthiness tests on
constructor-headed values, used to drive the case analyses below. -/
theorem isNone_str (s : String) : (PyVal.str s).isNone = false := rfl

/-- A string value passes the string test. -/
theorem isStr_str (s : String) : (PyVal.str s).isStr = true := rfl

/-- A list value passes the list test. -/
theorem isList_list (xs : List PyVal) : (PyVal.list xs).isList = true := rfl

/-- The elements of a list value. -/
theorem asList_list (xs : List PyVal) : (PyVal.list xs).asList = xs := rfl

/-- A list is truthy exactly when non-empty. -/
theorem truthy_list (xs : List PyVal) :
    (PyVal.list xs).truthy = !xs.isEmpty := rfl

/-- `'/'.join` on a two-element tuple. -/
theorem joinPath_pair (a b : String) : joinPath [a, b] = a ++ "/" ++ b := rfl

/-- `'/'.join` on a three-element tuple. -/
theorem joinPath_triple (a b c : String) :
    joinPath [a, b, c] = a ++ "/" ++ b ++ "/" ++ c := by
  simp [joinPath, String.append_assoc]

/-- Claim C1: for every mutating operation (resolve, acknowledge, reassign,
reassign_escalation_policy, rename, snooze, merge, add_responders,
create_note) and every `from_email` that is `None` or not a string (i.e.
fails the string test), the call raises `MissingFromEmail` carrying the
passed value, reaches no transport call, and this happens whatever the other
arguments are — so before any `InvalidArguments` check could fire. -/
theorem C1_missing_from_email_first (inc : Incident) (fe : PyVal)
    (h : fe.isStr = false)
    (resolution user_ids requester_id message uids epids epid title duration
      content : PyVal) (srcs : List PyVal) :
    inc.resolve fe resolution = .error (.missingFromEmail fe) ∧
    inc.acknowledge fe = .error (.missingFromEmail fe) ∧
    inc.reassign fe user_ids = .error (.missingFromEmail fe) ∧
    inc.reassign_escalation_policy fe epid = .error (.missingFromEmail fe) ∧
    inc.rename fe title = .error (.missingFromEmail fe) ∧
    inc.snooze fe duration = .error (.missingFromEmail fe) ∧
    inc.merge fe srcs = .error (.missingFromEmail fe) ∧
    inc.add_responders fe requester_id message uids epids
      = .error (.missingFromEmail fe) ∧
    inc.create_note fe content = .error (.missingFromEmail fe) := by
  refine ⟨?_, ?_, ?_, ?_, ?_, ?_, ?_, ?_, ?_⟩ <;>
    simp [Incident.resolve, Incident.acknowledge, Incident.reassign,
      Incident.reassign_escalation_policy, Incident.rename, Incident.snooze,
      Incident.merge, Incident.add_responders, Incident.create_note, h]

/-- Witness for C1 at `from_email = None` and arbitrary concrete other
arguments. -/
theorem C1_missing_from_email_first_witness :
    incW.resolve PyVal.none PyVal.none
      = .error (.missingFromEmail PyVal.none) ∧
    incW.acknowledge PyVal.none = .error (.missingFromEmail PyVal.none) ∧
    incW.reassign PyVal.none (PyVal.list [PyVal.str "U1"])
      = .error (.missingFromEmail PyVal.none) ∧
    incW.reassign_escalation_policy PyVal.none (PyVal.str "EP1")
      = .error (.missingFromEmail PyVal.none) ∧
    incW.rename PyVal.none (PyVal.str "t")
      = .error (.missingFromEmail PyVal.none) ∧
    incW.snooze PyVal.none (PyVal.int 3600)
      = .error (.missingFromEmail PyVal.none) ∧
    incW.merge PyVal.none [PyVal.str "PABC"]
      = .error (.missingFromEmail PyVal.none) ∧
    incW.add_responders PyVal.none (PyVal.str "R") (PyVal.str "msg")
      (PyVal.list [PyVal.str "U1"]) PyVal.none
      = .error (.missingFromEmail PyVal.none) ∧
    incW.create_note PyVal.none (PyVal.str "c")
      = .error (.missingFromEmail PyVal.none) :=
  C1_missing_from_email_first incW PyVal.none rfl PyVal.none
    (PyVal.list [PyVal.str "U1"]) (PyVal.str "R") (PyVal.str "msg")
    (PyVal.list [PyVal.str "U1"]) PyVal.none (PyVal.str "EP1") (PyVal.str "t")
    (PyVal.int 3600) (PyVal.str "c") [PyVal.str "PABC"]

/-- Claim C2: for every string email and every list of string user ids,
`reassign` produces exactly one transport call: verb PUT, endpoint
`<base>/<id>` with no suffix, header `from: email`, and body
`incident.type = "incident"`, `incident.assignments` holding one
`assignee` reference per user id in input order. -/
theorem C2_reassign_request_shape (inc : Incident) (email : String)
    (us : List String) :
    inc.reassign (PyVal.str email) (PyVal.list (us.map PyVal.str)) =
      .ok (.request "PUT" (inc.endpoint ++ "/" ++ inc.id)
        [("from", PyVal.str email)]
        (PyVal.dict [("incident", PyVal.dict
          [("type", PyVal.str "incident"),
           ("assignments", PyVal.list (us.map (fun u =>
             PyVal.dict [("assignee", PyVal.dict
               [("id", PyVal.str u),
                ("type", PyVal.str "user_reference")])])))])])) := by
  simp [Incident.reassign, joinPath, PyVal.isNone, PyVal.isStr, PyVal.isList,
    PyVal.asList, List.all_map, Function.comp, List.all_eq_true]

/-- Claim C3: with a valid string email, `reassign` raises `InvalidArguments`
carrying `user_ids` exactly when `user_ids` is `None`, not a list, or
contains a non-string element; the empty list is accepted and yields an
empty `assignments` array. -/
theorem C3_reassign_invalid_user_ids_iff (inc : Incident) (email : String)
    (uids : PyVal) :
    (inc.reassign (PyVal.str email) uids = .error (.invalidArguments uids) ↔
      (uids.isNone = true ∨ uids.isList = false ∨
        ∃ x ∈ uids.asList, x.isStr = false)) ∧
    inc.reassign (PyVal.str email) (PyVal.list []) =
      .ok (.request "PUT" (inc.endpoint ++ "/" ++ inc.id)
        [("from", PyVal.str email)]
        (PyVal.dict [("incident", PyVal.dict
          [("type", PyVal.str "incident"),
           ("assignments", PyVal.list [])])])) := by
  constructor
  · cases uids <;>
      simp [Incident.reassign, joinPath, PyVal.isNone, PyVal.isStr,
        PyVal.isList, PyVal.asList, List.all_eq_true]
  · simp [Incident.reassign, joinPath, PyVal.isNone, PyVal.isStr,
      PyVal.isList, PyVal.asList]

/-- Claim C4: for every string email, `resolve` sends PUT to `<base>/<id>`
with header `from: email`; the body is
`incident = (type "incident", status "resolved")` when `resolution` is
`None`, and when `resolution` is not `None` it is added as a top-level
`resolution` key, a sibling of `incident`, never nested inside it. -/
theorem C4_resolve_body_shape (inc : Incident) (email : String)
    (res : PyVal) :
    inc.resolve (PyVal.str email) PyVal.none =
      .ok (.request "PUT" (inc.endpoint ++ "/" ++ inc.id)
        [("from", PyVal.str email)]
        (PyVal.dict [("incident", PyVal.dict
          [("type", PyVal.str "incident"),
           ("status", PyVal.str "resolved")])])) ∧
    (res.isNone = false →
      inc.resolve (PyVal.str email) res =
        .ok (.request "PUT" (inc.endpoint ++ "/" ++ inc.id)
          [("from", PyVal.str email)]
          (PyVal.dict [("incident", PyVal.dict
            [("type", PyVal.str "incident"),
             ("status", PyVal.str "resolved")]),
            ("resolution", res)]))) := by
  constructor
  · simp [Incident.resolve, joinPath, PyVal.isNone, PyVal.isStr]
  · intro h
    cases res <;>
      simp_all [Incident.resolve, joinPath, PyVal.isNone, PyVal.isStr]

/-- Witness for C4 at `resolution = "fixed"`. -/
theorem C4_resolve_body_shape_witness :
    incW.resolve (PyVal.str "a@b.c") PyVal.none =
      .ok (.request "PUT" "/incidents/PXYZ" [("from", PyVal.str "a@b.c")]
        (PyVal.dict [("incident", PyVal.dict
          [("type", PyVal.str "incident"),
           ("status", PyVal.str "resolved")])])) ∧
    incW.resolve (PyVal.str "a@b.c") (PyVal.str "fixed") =
      .ok (.request "PUT" "/incidents/PXYZ" [("from", PyVal.str "a@b.c")]
        (PyVal.dict [("incident", PyVal.dict
          [("type", PyVal.str "incident"),
           ("status", PyVal.str "resolved")]),
          ("resolution", PyVal.str "fixed")])) :=
  ⟨(C4_resolve_body_shape incW "a@b.c" (PyVal.str "fixed")).1,
   (C4_resolve_body_shape incW "a@b.c" (PyVal.str "fixed")).2 rfl⟩

/-- Claim C5: with a valid email, `add_responders` raises `InvalidArguments`
when `user_ids` and `escalation_policy_ids` are both absent/empty (falsy),
before any transport call; and each provided (truthy) argument must be a
list of strings, else `InvalidArguments` carries the offending value —
`user_ids` being checked first. -/
theorem C5_add_responders_validation (inc : Incident) (email : String)
    (rid msg u e : PyVal) :
    (u.truthy = false → e.truthy = false →
      inc.add_responders (PyVal.str email) rid msg u e =
        .error (.invalidArguments
          (.str "Need at least one target to be supplied"))) ∧
    (u.truthy = true →
      (u.isList = false ∨ u.asList.all PyVal.isStr = false) →
      inc.add_responders (PyVal.str email) rid msg u e =
        .error (.invalidArguments u)) ∧
    ((u.truthy = false ∨ (u.isList = true ∧ u.asList.all PyVal.isStr = true)) →
      e.truthy = true →
      (e.isList = false ∨ e.asList.all PyVal.isStr = false) →
      inc.add_responders (PyVal.str email) rid msg u e =
        .error (.invalidArguments e)) := by
  refine ⟨?_, ?_, ?_⟩
  · intro hu he
    simp [Incident.add_responders, joinPath, PyVal.isNone, PyVal.isStr, hu, he]
  · intro hu h2
    rcases h2 with h | h
    · simp [Incident.add_responders, joinPath, PyVal.isNone, PyVal.isStr,
        hu, h]
    · by_cases hl : u.isList <;>
        simp [Incident.add_responders, joinPath, PyVal.isNone, PyVal.isStr,
          hu, h, hl]
  · intro hOk he h2
    have he2 : (if e.isList = false then True else
        ∃ x ∈ e.asList, x.isStr = false) := by
      rcases h2 with h | h
      · simp [h]
      · by_cases hel : e.isList = false
        · simp [hel]
        · simpa [hel] using h
    rcases hOk with hu | ⟨hl, ha⟩
    · by_cases hel : e.isList = false <;>
        simp_all [Incident.add_responders, joinPath, PyVal.isNone,
          PyVal.isStr, hu, he]
    · cases u with
      | list xs =>
        have hax : xs.all PyVal.isStr = true := by
          simpa [asList_list] using ha
        have hne : ¬ ∃ x ∈ xs, x.isStr = false := by simpa using hax
        by_cases hxe : xs.isEmpty <;>
          rcases h2 with h | h <;>
          by_cases hel : e.isList = true <;>
          simp_all [Incident.add_responders, joinPath, isNone_str, isStr_str,
            truthy_list, asList_list, isList_list] <;>
          · have hP : ¬ ∃ x ∈ xs, x.isStr = false := by
              rintro ⟨x, hx, hf⟩
              exact absurd (hax x hx) (by simp [hf])
            simp [hP]
      | none => simp [PyVal.isList] at hl
      | bool b => simp [PyVal.isList] at hl
      | int n => simp [PyVal.isList] at hl
      | str s => simp [PyVal.isList] at hl
      | dict kvs => simp [PyVal.isList] at hl
      | entity kvs => simp [PyVal.isList] at hl

/-- Witness for C5: both targets `None`; a truthy non-list `user_ids`; a
truthy non-list `escalation_policy_ids` with absent `user_ids`. -/
theorem C5_add_responders_validation_witness :
    incW.add_responders (PyVal.str "a@b.c") (PyVal.str "R") (PyVal.str "msg")
      PyVal.none PyVal.none =
      .error (.invalidArguments
        (.str "Need at least one target to be supplied")) ∧
    incW.add_responders (PyVal.str "a@b.c") (PyVal.str "R") (PyVal.str "msg")
      (PyVal.str "U1") PyVal.none =
      .error (.invalidArguments (PyVal.str "U1")) ∧
    incW.add_responders (PyVal.str "a@b.c") (PyVal.str "R") (PyVal.str "msg")
      PyVal.none (PyVal.int 5) =
      .error (.invalidArguments (PyVal.int 5)) :=
  ⟨(C5_add_responders_validation incW "a@b.c" (PyVal.str "R")
      (PyVal.str "msg") PyVal.none PyVal.none).1 rfl rfl,
   (C5_add_responders_validation incW "a@b.c" (PyVal.str "R")
      (PyVal.str "msg") (PyVal.str "U1") PyVal.none).2.1 rfl (Or.inl rfl),
   (C5_add_responders_validation incW "a@b.c" (PyVal.str "R")
      (PyVal.str "msg") PyVal.none (PyVal.int 5)).2.2 (Or.inl rfl) rfl
      (Or.inl rfl)⟩

/-- Claim C6: every succeeding `add_responders` call POSTs to
`<base>/<id>/responder_requests` the body with keys `requester_id`,
`message` and `responder_request_targets`, the targets being one
`user_reference` wrapper per user id followed by one
`escalation_policy_reference` wrapper per escalation policy id — all user
targets before all escalation-policy targets, each group in input order. -/
theorem C6_add_responders_request_shape (inc : Incident) (email : String)
    (rid msg : PyVal) (us es : List String) (h : us ≠ [] ∨ es ≠ []) :
    inc.add_responders (PyVal.str email) rid msg
      (PyVal.list (us.map PyVal.str)) (PyVal.list (es.map PyVal.str)) =
      .ok (.request "POST"
        (inc.endpoint ++ "/" ++ inc.id ++ "/" ++ "responder_requests")
        [("from", PyVal.str email)]
        (PyVal.dict
          [("requester_id", rid),
           ("message", msg),
           ("responder_request_targets", PyVal.list (
             us.map (fun u => PyVal.dict [("responder_request_target",
               PyVal.dict [("id", PyVal.str u),
                 ("type", PyVal.str "user_reference")])]) ++
             es.map (fun p => PyVal.dict [("responder_request_target",
               PyVal.dict [("id", PyVal.str p),
                 ("type", PyVal.str "escalation_policy_reference")])])))])) := by
  cases us <;> cases es <;>
    simp_all [Incident.add_responders, joinPath_triple, PyVal.truthy,
      PyVal.isList, PyVal.asList, PyVal.isNone, PyVal.isStr, List.all_map,
      Function.comp_def, List.all_eq_true]

/-- Witness for C6 with one user id and no escalation policy ids. -/
theorem C6_add_responders_request_shape_witness :
    incW.add_responders (PyVal.str "a@b.c") (PyVal.str "R") (PyVal.str "msg")
      (PyVal.list [PyVal.str "U1"]) (PyVal.list []) =
      .ok (.request "POST" "/incidents/PXYZ/responder_requests"
        [("from", PyVal.str "a@b.c")]
        (PyVal.dict
          [("requester_id", PyVal.str "R"),
           ("message", PyVal.str "msg"),
           ("responder_request_targets", PyVal.list
             [PyVal.dict [("responder_request_target",
               PyVal.dict [("id", PyVal.str "U1"),
                 ("type", PyVal.str "user_reference")])]])])) := by
  have h := C6_add_responders_request_shape incW "a@b.c" (PyVal.str "R")
    (PyVal.str "msg") ["U1"] [] (Or.inl (by simp))
  simpa using h

/-- Claim C7: `merge` normalizes each source incident — a raw id string or an
entity-like object exposing an `id` field — to its id string, and delegates
to `create` with data key `source_incidents`, the reference list
`(type "incident_reference", id)` in input order, and the method explicitly
overridden to PUT on endpoint `<base>/<id>/merge`. -/
theorem C7_merge_normalizes_sources (inc : Incident) (email : String)
    (xs : List IdOrEntity) :
    inc.merge (PyVal.str email) (xs.map IdOrEntity.toPyVal) =
      .ok (.create "Incident"
        (inc.endpoint ++ "/" ++ inc.id ++ "/" ++ "merge") inc.api_key
        [("from", PyVal.str email)] (some "source_incidents")
        (PyVal.list (xs.map (fun x =>
          PyVal.dict [("type", PyVal.str "incident_reference"),
            ("id", PyVal.str x.idStr)])))
        (some "PUT")) := by
  simp only [Incident.merge, joinPath_triple, PyVal.isNone, PyVal.isStr,
    Bool.not_true, Bool.or_false, if_false, List.map_map]
  refine congrArg _ (congrArg _ ?_)
  induction xs with
  | nil => rfl
  | cons x t ih =>
    cases x <;>
      simp_all [IdOrEntity.toPyVal, IdOrEntity.idStr, PyVal.isEntity,
        PyVal.getItem, List.find?, Function.comp]

/-- Claim C8: `log_entries` issues a `find` on the log-entry factory at
`<base>/<id>/log_entries` with no `from` header and no body; the keyword
arguments carry `fetch_all`, `time_zone` as given, `is_overview` encoded as
the JSON literal string of the boolean (never a native boolean), and
`include` only when it is truthy. -/
theorem C8_log_entries_query_encoding (inc : Incident) (tz : PyVal)
    (b : Bool) (incl fa : PyVal) :
    inc.log_entries tz (PyVal.bool b) incl fa =
      .ok (.find "LogEntry"
        (inc.endpoint ++ "/" ++ inc.id ++ "/" ++ "log_entries") inc.api_key
        ([("fetch_all", fa), ("time_zone", tz),
          ("is_overview", PyVal.str (if b then "true" else "false"))] ++
         (if incl.truthy then [("include", incl)] else []))) := by
  cases b <;> by_cases hi : incl.truthy <;>
    simp [Incident.log_entries, joinPath_triple, jsonDumps, hi]

/-- Claim C9: `update` always fails — its body is `raise NotImplemented`,
which itself errors because `NotImplemented` is not an exception class — and
never reaches the transport, for every combination of arguments. -/
theorem C9_update_always_fails (inc : Incident) (args : List PyVal)
    (kwargs : List (String × PyVal)) :
    inc.update args kwargs = .error PyErr.raisedNotImplementedConstant ∧
    ∀ c : NetCall, inc.update args kwargs ≠ .ok c :=
  ⟨rfl, fun _ h => nomatch h⟩

/-- Claim C10: in `add_responders` a falsy `user_ids` or
`escalation_policy_ids` (empty list, empty string, 0, ...) is treated as
absent: with the other argument a non-empty list of strings the call
succeeds, performs no type check on the falsy argument, and contributes no
targets for it. -/
theorem C10_add_responders_falsy_treated_absent (inc : Incident)
    (email : String) (rid msg : PyVal) (us es : List String) (u e : PyVal) :
    (us ≠ [] → e.truthy = false →
      inc.add_responders (PyVal.str email) rid msg
        (PyVal.list (us.map PyVal.str)) e =
        .ok (.request "POST"
          (inc.endpoint ++ "/" ++ inc.id ++ "/" ++ "responder_requests")
          [("from", PyVal.str email)]
          (PyVal.dict
            [("requester_id", rid),
             ("message", msg),
             ("responder_request_targets", PyVal.list
               (us.map (fun v => PyVal.dict [("responder_request_target",
                 PyVal.dict [("id", PyVal.str v),
                   ("type", PyVal.str "user_reference")])])))]))) ∧
    (es ≠ [] → u.truthy = false →
      inc.add_responders (PyVal.str email) rid msg u
        (PyVal.list (es.map PyVal.str)) =
        .ok (.request "POST"
          (inc.endpoint ++ "/" ++ inc.id ++ "/" ++ "responder_requests")
          [("from", PyVal.str email)]
          (PyVal.dict
            [("requester_id", rid),
             ("message", msg),
             ("responder_request_targets", PyVal.list
               (es.map (fun p => PyVal.dict [("responder_request_target",
                 PyVal.dict [("id", PyVal.str p),
                   ("type", PyVal.str "escalation_policy_reference")])])))]))) := by
  constructor
  · intro hus he
    cases us <;>
      simp_all [Incident.add_responders, joinPath_triple, PyVal.truthy,
        PyVal.isList, PyVal.asList, PyVal.isNone, PyVal.isStr, List.all_map,
        Function.comp, List.all_eq_true]
  · intro hes hu
    cases es <;>
      simp_all [Incident.add_responders, joinPath_triple, PyVal.truthy,
        PyVal.isList, PyVal.asList, PyVal.isNone, PyVal.isStr, List.all_map,
        Function.comp, List.all_eq_true]

/-- Witness for C10: `escalation_policy_ids = ""` (falsy, neither `None` nor
a list) does not raise, and `user_ids = 0` (falsy) contributes no targets. -/
theorem C10_add_responders_falsy_treated_absent_witness :
    incW.add_responders (PyVal.str "a@b.c") (PyVal.str "R") (PyVal.str "msg")
      (PyVal.list [PyVal.str "U1"]) (PyVal.str "") =
      .ok (.request "POST" "/incidents/PXYZ/responder_requests"
        [("from", PyVal.str "a@b.c")]
        (PyVal.dict
          [("requester_id", PyVal.str "R"),
           ("message", PyVal.str "msg"),
           ("responder_request_targets", PyVal.list
             [PyVal.dict [("responder_request_target",
               PyVal.dict [("id", PyVal.str "U1"),
                 ("type", PyVal.str "user_reference")])]])])) ∧
    incW.add_responders (PyVal.str "a@b.c") (PyVal.str "R") (PyVal.str "msg")
      (PyVal.int 0) (PyVal.list [PyVal.str "E1"]) =
      .ok (.request "POST" "/incidents/PXYZ/responder_requests"
        [("from", PyVal.str "a@b.c")]
        (PyVal.dict
          [("requester_id", PyVal.str "R"),
           ("message", PyVal.str "msg"),
           ("responder_request_targets", PyVal.list
             [PyVal.dict [("responder_request_target",
               PyVal.dict [("id", PyVal.str "E1"),
                 ("type", PyVal.str "escalation_policy_reference")])]])])) := by
  have h1 := (C10_add_responders_falsy_treated_absent incW "a@b.c"
    (PyVal.str "R") (PyVal.str "msg") ["U1"] [] (PyVal.int 0)
    (PyVal.str "")).1 (by simp) rfl
  have h2 := (C10_add_responders_falsy_treated_absent incW "a@b.c"
    (PyVal.str "R") (PyVal.str "msg") [] ["E1"] (PyVal.int 0)
    (PyVal.str "")).2 (by simp) rfl
  exact ⟨by simpa using h1, by simpa using h2⟩

end Pypd
